import Mathlib

/-!
Verification of the movies CRUD server (`server.js`) and the client embed-URL
helper (`main.js`) of this repository, via a shallow embedding in Lean.

The embedding models:
* the `movies` table rows and the SQL `ORDER BY year DESC, title ASC` listing,
* the multer upload middleware (`fileFilter` regex test, `limits.fileSize`,
  `diskStorage` unique-name file writes),
* the POST / PUT / DELETE route handlers, including the JS `x || null`
  normalisation of form fields and the poster-file bookkeeping,
* the `INTEGER PRIMARY KEY AUTOINCREMENT` id assignment, and
* the `getEmbedUrl` YouTube-URL rewriting of `main.js`.
-/

/-- A stored row of the `movies` table as read back by `SELECT *` for the
listing contract.  Per the schema, `title` is `TEXT NOT NULL`; `year` has
INTEGER affinity, so the (numeric) years are stored as integers and a missing
year is SQL NULL, modelled as `none`. -/
structure Movie where
  id : Nat
  title : String
  year : Option Int
  poster_url : Option String
  poster_local : Option String
  dop : Option String
  bobo_crew : Option String
  imdb_url : Option String
  tmdb_url : Option String
  trailer_url : Option String
  production_company : Option String
  synopsis : Option String
deriving DecidableEq, Repr

/-- A row as written by the POST / PUT handlers: the exact values bound by
`stmt.run` at `server.js:110` and `server.js:149`.  Multipart form fields are
strings, so every optional column holds the bound string (or NULL). -/
structure Row where
  id : Nat
  title : String
  year : Option String
  poster_url : Option String
  poster_local : Option String
  dop : Option String
  bobo_crew : Option String
  imdb_url : Option String
  tmdb_url : Option String
  trailer_url : Option String
  production_company : Option String
  synopsis : Option String
deriving DecidableEq, Repr

/-- The request body fields destructured at `server.js:101` and
`server.js:122`: each is absent (`none`) or a form-data string. -/
structure ReqBody where
  title : Option String
  year : Option String
  poster_url : Option String
  dop : Option String
  bobo_crew : Option String
  imdb_url : Option String
  tmdb_url : Option String
  trailer_url : Option String
  production_company : Option String
  synopsis : Option String
deriving DecidableEq, Repr

/-- An uploaded `poster` file part: the client-supplied original name and
mimetype, its byte size, and the unique name generated by the
`multer.diskStorage` filename callback (`server.js:30`). -/
structure UploadFile where
  originalname : String
  mimetype : String
  size : Nat
  storedName : String
deriving DecidableEq, Repr

/-- Server-side persistent state: the `movies` table rows, the set of files on
disk under `uploads/posters` (identified by their `/uploads/posters/...`
paths), and the AUTOINCREMENT sequence counter. -/
structure SrvSt where
  rows : List Row
  files : List String
  nextId : Nat
deriving DecidableEq, Repr

/-- JavaScript `v || null` applied to an optional form-data string: an absent
field (`undefined`) and the empty string are both falsy, hence become NULL. -/
def jsOr : Option String → Option String
  | none => none
  | some s => if s = "" then none else some s

/-- `p` is a prefix of `s` (on character lists). -/
def isPrefixL : List Char → List Char → Bool
  | [], _ => true
  | _ :: _, [] => false
  | p :: ps, c :: cs => p == c && isPrefixL ps cs

/-- Strip the prefix `p` from `s`, or `none` if `p` is not a prefix of `s`. -/
def stripPre : List Char → List Char → Option (List Char)
  | [], s => some s
  | _ :: _, [] => none
  | p :: ps, c :: cs => if p = c then stripPre ps cs else none

/-- `p` occurs as a contiguous substring of `s`; this is what an unanchored
JavaScript regex of a literal alternative tests. -/
def containsL (p : List Char) : List Char → Bool
  | [] => (stripPre p []).isSome
  | c :: rest => (stripPre p (c :: rest)).isSome || containsL p rest

/-- Node's `path.extname` restricted to plain file names (no directory
separators): the suffix starting at the last `.` that is not the leading
character, else the empty string. -/
def extAux : List Char → Option (List Char)
  | [] => none
  | c :: cs =>
    match extAux cs with
    | some e => some e
    | none => if c = '.' then some (c :: cs) else none

/-- `path.extname` on a plain file name. -/
def extnameL (s : List Char) : List Char :=
  match s with
  | [] => []
  | _ :: tail =>
    match extAux tail with
    | some e => e
    | none => []

/-- Lower-case a character list (`String.prototype.toLowerCase`). -/
def toLowerL (s : List Char) : List Char := s.map Char.toLower

/-- The regex `/jpeg|jpg|png|webp/` of `server.js:40` `.test`s a string by
substring search for any alternative. -/
def hasToken (s : List Char) : Bool :=
  containsL "jpeg".toList s || containsL "jpg".toList s ||
    containsL "png".toList s || containsL "webp".toList s

/-- The multer `fileFilter` of `server.js:39`: accept iff the regex matches
the lower-cased `path.extname(originalname)` and also matches the mimetype. -/
def fileFilterAccepts (f : UploadFile) : Bool :=
  hasToken (toLowerL (extnameL f.originalname.toList)) && hasToken f.mimetype.toList

/-- `limits.fileSize` of `server.js:38`: 5 MB. -/
def fileSizeLimit : Nat := 5 * 1024 * 1024

/-- The public path under which a stored upload is referenced
(`server.js:103` / `server.js:138`). -/
def posterPathOf (f : UploadFile) : String :=
  "/uploads/posters/" ++ f.storedName

/-- The `upload.single` middleware. `none` means the middleware errored (the
`fileFilter` rejected the file, or the 5 MB limit was hit and multer removed
the partial write): the route handler never runs and Express's default error
handler answers with status 500.  Otherwise it yields the disk state after
multer's write together with the new `poster_local` value (if a file part was
present). -/
def runUpload (files : List String) (f? : Option UploadFile) :
    Option (List String × Option String) :=
  match f? with
  | none => some (files, none)
  | some f =>
    if fileFilterAccepts f = false then none
    else if fileSizeLimit < f.size then none
    else some (files ++ [posterPathOf f], some (posterPathOf f))

/-- Outcome of a route: HTTP status, resulting server state, and the JSON row
returned on success. -/
structure HttpOut where
  status : Nat
  st : SrvSt
  body : Option Row
deriving DecidableEq, Repr

/-- `SELECT * FROM movies WHERE id = ?`. -/
def findRow (rows : List Row) (i : Nat) : Option Row :=
  rows.find? (fun r => r.id == i)

/-- The `POST /api/movies` handler (`server.js:99`).  After the upload
middleware, the handler binds `title` as given (an absent `title` is
`undefined`, which better-sqlite3 refuses to bind — the throw is caught and
mapped to status 500, with the row set unchanged but any uploaded file left on
disk), and every optional field as `field || null`. -/
def postMovies (st : SrvSt) (body : ReqBody) (f? : Option UploadFile) : HttpOut :=
  match runUpload st.files f? with
  | none => ⟨500, st, none⟩
  | some (files1, poster) =>
    match body.title with
    | none => ⟨500, { st with files := files1 }, none⟩
    | some t =>
      let r : Row :=
        ⟨st.nextId, t, jsOr body.year, jsOr body.poster_url, poster,
          jsOr body.dop, jsOr body.bobo_crew, jsOr body.imdb_url,
          jsOr body.tmdb_url, jsOr body.trailer_url,
          jsOr body.production_company, jsOr body.synopsis⟩
      ⟨201, ⟨st.rows ++ [r], files1, st.nextId + 1⟩, some r⟩

/-- The `PUT /api/movies/:id` handler (`server.js:120`).  The upload
middleware runs first; the handler then looks the row up (404 if absent —
note a file already written stays on disk), and when a new file was uploaded
it unlinks the previously referenced poster if that file exists
(`server.js:132`) and points `poster_local` at the new path; with no upload,
`poster_local` keeps its previous value (`server.js:129`).  Field binding is
as in POST. -/
def putMovie (st : SrvSt) (i : Nat) (body : ReqBody) (f? : Option UploadFile) : HttpOut :=
  match runUpload st.files f? with
  | none => ⟨500, st, none⟩
  | some (files1, newPoster) =>
    match findRow st.rows i with
    | none => ⟨404, { st with files := files1 }, none⟩
    | some m =>
      let files2 :=
        match newPoster, m.poster_local with
        | some _, some old => if old ∈ files1 then files1.erase old else files1
        | _, _ => files1
      let poster2 :=
        match newPoster with
        | some p => some p
        | none => m.poster_local
      match body.title with
      | none => ⟨500, { st with files := files2 }, none⟩
      | some t =>
        let r : Row :=
          ⟨m.id, t, jsOr body.year, jsOr body.poster_url, poster2,
            jsOr body.dop, jsOr body.bobo_crew, jsOr body.imdb_url,
            jsOr body.tmdb_url, jsOr body.trailer_url,
            jsOr body.production_company, jsOr body.synopsis⟩
        ⟨200, ⟨st.rows.map (fun x => if x.id = i then r else x), files2, st.nextId⟩,
          some r⟩

/-- The `DELETE /api/movies/:id` handler (`server.js:159`).  `unlinkFails`
models the environment: `unlinkFails p = true` means `fs.unlinkSync` throws on
path `p`.  The whole handler body sits in one `try`, so a throwing unlink is
caught at `server.js:176` and answered with status 500 — the `DELETE` SQL
statement never runs. -/
def deleteMovie (unlinkFails : String → Bool) (st : SrvSt) (i : Nat) : Nat × SrvSt :=
  match findRow st.rows i with
  | none => (404, st)
  | some m =>
    match m.poster_local with
    | some p =>
      if p ∈ st.files then
        if unlinkFails p then (500, st)
        else (200, ⟨st.rows.filter (fun r => r.id != i), st.files.erase p, st.nextId⟩)
      else (200, ⟨st.rows.filter (fun r => r.id != i), st.files, st.nextId⟩)
    | none => (200, ⟨st.rows.filter (fun r => r.id != i), st.files, st.nextId⟩)

/-- `year` as SQLite orders it: NULL sorts below every integer. -/
def yb (y : Option Int) : WithBot Int :=
  match y with
  | none => ⊥
  | some x => (x : WithBot Int)

/-- The row order produced by `ORDER BY year DESC, title ASC`
(`server.js:78`): `a` may be listed no later than `b` iff `a.year` is greater
(NULL least, hence last under DESC), or the years coincide and
`a.title ≤ b.title` (ascending, byte-wise BINARY collation — which on UTF-8
agrees with the code-point order of Lean strings). -/
def sqlLe (a b : Movie) : Prop :=
  yb b.year < yb a.year ∨ (yb a.year = yb b.year ∧ a.title ≤ b.title)

instance : DecidableRel sqlLe := fun a b => by
  unfold sqlLe; infer_instance

instance : IsTotal Movie sqlLe := by
  constructor
  intro a b
  rcases lt_trichotomy (yb a.year) (yb b.year) with h | h | h
  · exact Or.inr (Or.inl h)
  · rcases le_total a.title b.title with ht | ht
    · exact Or.inl (Or.inr ⟨h, ht⟩)
    · exact Or.inr (Or.inr ⟨h.symm, ht⟩)
  · exact Or.inl (Or.inl h)

instance : IsTrans Movie sqlLe := by
  constructor
  intro a b c hab hbc
  rcases hab with h1 | ⟨e1, t1⟩
  · rcases hbc with h2 | ⟨e2, _⟩
    · exact Or.inl (h2.trans h1)
    · exact Or.inl (e2.symm.trans_lt h1)
  · rcases hbc with h2 | ⟨e2, t2⟩
    · exact Or.inl (h2.trans_eq e1.symm)
    · exact Or.inr ⟨e1.trans e2, t1.trans t2⟩

/-- `GET /api/movies` (`server.js:76`): all rows, sorted by the SQL order. -/
def listMovies (db : List Movie) : List Movie :=
  db.insertionSort sqlLe

/-- "`A.year > B.year` … treating missing year as lower than any present
year", exactly as the claim words it. -/
def yearGt : Option Int → Option Int → Prop
  | some x, some y => y < x
  | some _, none => True
  | none, _ => False

/-- The pairwise listing contract claimed for `list()`: of two returned
records, the earlier one has the strictly greater year (missing years lowest),
or the years agree and the titles are in ascending order. -/
def listedBefore (a b : Movie) : Prop :=
  yearGt a.year b.year ∨ (a.year = b.year ∧ a.title ≤ b.title)

/-- One `movies`-table mutation, as far as id assignment is concerned. -/
inductive DbOp where
  | create
  | erase (i : Nat)
deriving DecidableEq, Repr

/-- The id-relevant state of the table: the `sqlite_sequence` counter kept by
`INTEGER PRIMARY KEY AUTOINCREMENT` (the largest id ever assigned) and the
rowids currently present.  AUTOINCREMENT assigns `seq + 1` to a new row and
never lowers `seq`, in particular not on DELETE. -/
structure TableSt where
  seq : Nat
  present : List Nat
deriving DecidableEq, Repr

/-- Apply one operation; a create returns the id it assigned. -/
def stepOp (s : TableSt) : DbOp → TableSt × Option Nat
  | DbOp.create => (⟨s.seq + 1, s.present ++ [s.seq + 1]⟩, some (s.seq + 1))
  | DbOp.erase i => (⟨s.seq, s.present.filter (fun j => j != i)⟩, none)

/-- The ids assigned, in order, by a sequence of operations run from `s`. -/
def assignedFrom (s : TableSt) : List DbOp → List Nat
  | [] => []
  | op :: ops =>
    match stepOp s op with
    | (s', some i) => i :: assignedFrom s' ops
    | (s', none) => assignedFrom s' ops

/-- The table as created empty by `CREATE TABLE` (`server.js:54`). -/
def initTable : TableSt := ⟨0, []⟩

/-- A disk/record snapshot during a poster update: the files on disk and the
path the record currently references. -/
def refAt (s : List String × Option String) (p : String) : Prop :=
  s.2 = some p ∧ p ∈ s.1

/-- Disk state after the handler's unlink step (`server.js:132`): multer has
already written the new file; the old referenced path is unlinked if it is on
disk. -/
def afterUnlink (files : List String) (oldp : Option String) (newPath : String) :
    List String :=
  let f1 := files ++ [newPath]
  match oldp with
  | some p => if p ∈ f1 then f1.erase p else f1
  | none => f1

/-- The snapshots a poster-replacing update passes through, in program order:
initial; after multer writes the new file (`server.js:26`); after the old file
is unlinked (`server.js:132`); after `poster_local` is repointed and persisted
(`server.js:138`, `server.js:149`). -/
def posterSteps (files : List String) (oldp : Option String) (newPath : String) :
    List (List String × Option String) :=
  [(files, oldp),
   (files ++ [newPath], oldp),
   (afterUnlink files oldp newPath, oldp),
   (afterUnlink files oldp newPath, some newPath)]

/-- The first regex alternative of `main.js:484`, the literal
`youtube.com/watch?v=`, as a character list. -/
def watchMark : List Char := "youtube.com/watch?v=".toList

/-- The second regex alternative of `main.js:484`, the literal `youtu.be/`. -/
def shortMark : List Char := "youtu.be/".toList

/-- The capture `([^&]+)` taken at the current position: the longest run of
non-`&` characters, required to be non-empty. -/
def capAt (r : List Char) : Option (List Char) :=
  let cap := r.takeWhile (fun c => c != '&')
  if cap = [] then none else some cap

/-- One position of the regex scan: try the `watch` literal, then the
short-link literal, and on a hit take the non-empty `[^&]+` capture. -/
def tryHere (s : List Char) : Option (List Char) :=
  match stripPre watchMark s with
  | some r => capAt r
  | none =>
    match stripPre shortMark s with
    | some r => capAt r
    | none => none

/-- `url.match(/(?:youtube\.com\/watch\?v=|youtu\.be\/)([^&]+)/)`: scan left
to right trying both literal alternatives at each position.  (The two
literals can never match at the same position, so a failed capture just moves
the scan on, as the regex engine would.) -/
def findMatch : List Char → Option (List Char)
  | [] => none
  | c :: rest =>
    match tryHere (c :: rest) with
    | some cap => some cap
    | none => findMatch rest

/-- `getEmbedUrl` of `main.js:483`: on a match, build the embed URL from the
captured id; otherwise return the input unchanged. -/
def getEmbedUrl (url : String) : String :=
  match findMatch url.toList with
  | some vid => "https://www.youtube.com/embed/" ++ String.mk vid ++ "?autoplay=1&rel=0"
  | none => url

lemma yearGt_of_yb_lt {x y : Option Int} (h : yb y < yb x) : yearGt x y := by
  cases x with
  | none => exact absurd h (WithBot.not_lt_bot (yb y))
  | some a =>
    cases y with
    | none => trivial
    | some b => exact WithBot.coe_lt_coe.mp h

lemma yb_inj {x y : Option Int} (h : yb x = yb y) : x = y := by
  cases x <;> cases y <;> simp_all [yb]

lemma sqlLe_listedBefore {a b : Movie} (h : sqlLe a b) : listedBefore a b := by
  rcases h with hlt | ⟨he, ht⟩
  · exact Or.inl (yearGt_of_yb_lt hlt)
  · exact Or.inr ⟨yb_inj he, ht⟩

/-- C1: for every state of the store, `list()` returns all records, and for
any record A listed before a record B, either `A.year > B.year` (a missing
year counting as lower than any present year), or the years coincide and
`A.title ≤ B.title` lexically.  This is the `ORDER BY year DESC, title ASC`
contract of `GET /api/movies`. -/
theorem listMovies_order_contract (db : List Movie) :
    (listMovies db).Perm db ∧ List.Pairwise listedBefore (listMovies db) := by
  refine ⟨List.perm_insertionSort sqlLe db, ?_⟩
  exact (List.sorted_insertionSort sqlLe db).imp sqlLe_listedBefore

lemma assignedFrom_incr (ops : List DbOp) : ∀ s : TableSt,
    List.Pairwise (· < ·) (assignedFrom s ops) ∧ ∀ i ∈ assignedFrom s ops, s.seq < i := by
  induction ops with
  | nil => intro s; simp [assignedFrom]
  | cons op ops ih =>
    intro s
    cases op with
    | create =>
      simp only [assignedFrom, stepOp]
      obtain ⟨h1, h2⟩ := ih ⟨s.seq + 1, s.present ++ [s.seq + 1]⟩
      refine ⟨List.Pairwise.cons (fun j hj => h2 j hj) h1, ?_⟩
      intro i hi
      rcases List.mem_cons.mp hi with rfl | hi
      · omega
      · have := h2 i hi
        simp only at this
        omega
    | erase k =>
      simp only [assignedFrom, stepOp]
      exact ih ⟨s.seq, s.present.filter (fun j => j != k)⟩

/-- C8: over every sequence of create/delete operations run against the table
(as created by `CREATE TABLE … INTEGER PRIMARY KEY AUTOINCREMENT`), the ids
assigned to created records are strictly increasing over time and therefore
pairwise distinct: an id is never reused, in particular not after the record
bearing it is deleted. -/
theorem autoincrement_never_reuses_ids (ops : List DbOp) :
    List.Pairwise (· < ·) (assignedFrom initTable ops) ∧
      (assignedFrom initTable ops).Nodup := by
  refine ⟨(assignedFrom_incr ops initTable).1, ?_⟩
  exact (assignedFrom_incr ops initTable).1.imp (fun h => Nat.ne_of_lt h)

/-- C3: replacing a record's poster with a freshly named uploaded file: at no
point of the update do the old and the new file both exist while referenced
by the record, and afterwards exactly the new file is reachable from the
record — it is on disk and referenced — while the previously referenced file
is gone from disk. -/
theorem poster_replace_exactly_one (files : List String) (old newPath : String)
    (hne : old ≠ newPath) (hnd : files.Nodup) (hnew : newPath ∉ files) :
    (∀ s ∈ posterSteps files (some old) newPath, ¬ (refAt s old ∧ refAt s newPath)) ∧
      refAt (afterUnlink files (some old) newPath, some newPath) newPath ∧
      old ∉ afterUnlink files (some old) newPath := by
  have hnd1 : (files ++ [newPath]).Nodup := by
    simp [List.nodup_append, hnd, List.disjoint_singleton]
    intro h
    exact hnew h
  refine ⟨?_, ?_, ?_⟩
  · intro s _
    rintro ⟨⟨h1, _⟩, ⟨h2, _⟩⟩
    exact hne (by simpa using h1.symm.trans h2)
  · refine ⟨rfl, ?_⟩
    simp only [afterUnlink]
    by_cases hold : old ∈ files ++ [newPath]
    · rw [if_pos hold]
      exact (List.mem_erase_of_ne (Ne.symm hne)).mpr (by simp)
    · rw [if_neg hold]
      simp
  · simp only [afterUnlink]
    by_cases hold : old ∈ files ++ [newPath]
    · rw [if_pos hold]
      exact hnd1.not_mem_erase
    · rw [if_neg hold]
      exact hold

/-- Witness for C3 at a concrete disk state and file pair. -/
theorem poster_replace_exactly_one_witness :
    refAt (afterUnlink ["/uploads/posters/a.jpg"] (some "/uploads/posters/a.jpg")
        "/uploads/posters/b.jpg", some "/uploads/posters/b.jpg")
      "/uploads/posters/b.jpg" ∧
    "/uploads/posters/a.jpg" ∉
      afterUnlink ["/uploads/posters/a.jpg"] (some "/uploads/posters/a.jpg")
        "/uploads/posters/b.jpg" :=
  (poster_replace_exactly_one ["/uploads/posters/a.jpg"] "/uploads/posters/a.jpg"
    "/uploads/posters/b.jpg" (by decide) (by decide) (by decide)).2

/-- A row referencing a poster file, for concrete runs of the delete and
update handlers. -/
def rowA : Row :=
  ⟨1, "A", none, none, some "/uploads/posters/a.jpg",
    none, none, none, none, none, none, none⟩

/-- A server state holding `rowA` with its poster file on disk. -/
def stA : SrvSt := ⟨[rowA], ["/uploads/posters/a.jpg"], 2⟩

/-- C4 counterexample: delete of an existing record whose poster-file removal
fails (`fs.unlinkSync` throws).  The handler answers 500 and the record is
still in the table — the deletion did not proceed, contradicting the claim
that the record is removed and the operation succeeds. -/
theorem delete_unlink_failure_blocks_counterexample :
    deleteMovie (fun _ => true) stA 1 = (500, stA) ∧
      findRow stA.rows 1 = some rowA := by
  constructor <;> rfl

/-- C4 (amended): if the referenced poster file is simply absent from disk,
the delete proceeds (removal is skipped by the `fs.existsSync` guard); but if
the unlink itself fails, the handler returns 500 with the table unchanged —
the record deletion does NOT proceed, and file orphaning is not tolerated. -/
theorem delete_unlink_failure_amended (uf : String → Bool) (st : SrvSt) (i : Nat)
    (m : Row) (p : String) (hfind : findRow st.rows i = some m)
    (hp : m.poster_local = some p) :
    (p ∈ st.files → uf p = true → deleteMovie uf st i = (500, st)) ∧
      (p ∉ st.files →
        deleteMovie uf st i =
          (200, ⟨st.rows.filter (fun r => r.id != i), st.files, st.nextId⟩)) := by
  constructor
  · intro h1 h2
    simp [deleteMovie, hfind, hp, h1, h2]
  · intro h1
    simp [deleteMovie, hfind, hp, h1]

/-- Witness for C4's amended statement at a concrete state. -/
theorem delete_unlink_failure_amended_witness :
    deleteMovie (fun _ => false) ⟨[rowA], [], 2⟩ 1 =
      (200, ⟨[], [], 2⟩) :=
  (delete_unlink_failure_amended (fun _ => false) ⟨[rowA], [], 2⟩ 1 rowA
    "/uploads/posters/a.jpg" rfl rfl).2 (by decide)

/-- An update body supplying a value for every caller-suppliable field, with
no poster file part. -/
def bodyB : ReqBody :=
  ⟨some "B", some "2020", some "u", some "d", some "c",
    some "i", some "t", some "tr", some "pc", some "s"⟩

/-- C2 counterexample: updating `rowA` (whose `poster_local` references a
stored file) with a request carrying no poster file.  The update succeeds, yet
the persisted `poster_local` is still the old path rather than NULL — the
field was omitted from the input but **not** persisted as absent, refuting the
claim that every omitted mutable field is replaced by NULL. -/
theorem update_full_replace_counterexample :
    (putMovie stA 1 bodyB none).status = 200 ∧
      ((putMovie stA 1 bodyB none).body.map (fun r => r.poster_local)) =
        some (some "/uploads/posters/a.jpg") := by
  constructor <;> rfl

/-- C2 (amended): `PUT` fully replaces the nine caller-suppliable optional
fields — any of them omitted (or empty) is persisted as NULL — but
`poster_local` is an exception: with no uploaded file it keeps its previous
value, and with an uploaded file it points at the new stored path.  (A request
omitting `title` instead fails with status 500 and changes no row.) -/
theorem update_full_replace_amended (st : SrvSt) (i : Nat) (body : ReqBody)
    (m : Row) (t : String) (hfind : findRow st.rows i = some m)
    (ht : body.title = some t) :
    ((putMovie st i body none).status = 200 ∧
      (putMovie st i body none).body =
        some ⟨m.id, t, jsOr body.year, jsOr body.poster_url, m.poster_local,
          jsOr body.dop, jsOr body.bobo_crew, jsOr body.imdb_url,
          jsOr body.tmdb_url, jsOr body.trailer_url,
          jsOr body.production_company, jsOr body.synopsis⟩) ∧
    (∀ f : UploadFile, fileFilterAccepts f = true → f.size ≤ fileSizeLimit →
      (putMovie st i body (some f)).status = 200 ∧
      (putMovie st i body (some f)).body =
        some ⟨m.id, t, jsOr body.year, jsOr body.poster_url, some (posterPathOf f),
          jsOr body.dop, jsOr body.bobo_crew, jsOr body.imdb_url,
          jsOr body.tmdb_url, jsOr body.trailer_url,
          jsOr body.production_company, jsOr body.synopsis⟩) := by
  constructor
  · constructor <;> simp [putMovie, runUpload, hfind, ht]
  · intro f hacc hsize
    have hns : ¬ fileSizeLimit < f.size := Nat.not_lt.mpr hsize
    constructor <;> simp [putMovie, runUpload, hfind, ht, hacc, hns]

/-- Witness for C2's amended statement: an update of `rowA` sending only a
title persists NULL for all nine optional fields but keeps the old
`poster_local`. -/
theorem update_full_replace_amended_witness :
    (putMovie stA 1 ⟨some "B", none, none, none, none, none, none, none, none, none⟩
        none).status = 200 ∧
      (putMovie stA 1 ⟨some "B", none, none, none, none, none, none, none, none, none⟩
          none).body =
        some ⟨1, "B", none, none, some "/uploads/posters/a.jpg",
          none, none, none, none, none, none, none⟩ :=
  (update_full_replace_amended stA 1
    ⟨some "B", none, none, none, none, none, none, none, none, none⟩
    rowA "B" rfl rfl).1

/-- A request body with no fields at all (in particular no `title`). -/
def bodyNone : ReqBody :=
  ⟨none, none, none, none, none, none, none, none, none, none⟩

/-- C5 counterexample: a create request with the required `title` missing.
No record is inserted (that much of the claim holds), but the response status
is 500 — the generic-fault status — not a client-facing 4xx, and no
validation ran before the insert attempt: the failure comes from the database
binding itself. -/
theorem create_missing_title_counterexample :
    (postMovies stA bodyNone none).status = 500 ∧
      (postMovies stA bodyNone none).st.rows = stA.rows ∧
      ¬ (400 ≤ (postMovies stA bodyNone none).status ∧
          (postMovies stA bodyNone none).status < 500) := by
  refine ⟨rfl, rfl, ?_⟩
  decide

/-- C5 (amended): a create request with `title` missing inserts no record and
fails, but with the generic status 500 (the insert's binding throws inside the
handler's `try` and is caught at `server.js:114`), not with a
`ValidationError` mapped to a 4xx; the handler performs no validation of
required fields before attempting the insert. -/
theorem create_missing_title_amended (st : SrvSt) (body : ReqBody)
    (f? : Option UploadFile) (ht : body.title = none) :
    (postMovies st body f?).status = 500 ∧
      (postMovies st body f?).st.rows = st.rows ∧
      (postMovies st body f?).body = none := by
  cases hru : runUpload st.files f? with
  | none => simp [postMovies, hru]
  | some pr =>
    obtain ⟨files1, poster⟩ := pr
    simp [postMovies, hru, ht]

/-- Witness for C5's amended statement. -/
theorem create_missing_title_amended_witness :
    (postMovies stA bodyNone none).status = 500 ∧
      (postMovies stA bodyNone none).st.rows = stA.rows ∧
      (postMovies stA bodyNone none).body = none :=
  create_missing_title_amended stA bodyNone none rfl

/-- A create body supplying only a title. -/
def bodyT : ReqBody :=
  ⟨some "T", none, none, none, none, none, none, none, none, none⟩

/-- An uploaded file whose extension `.zzpng` is outside the allow-list
`{jpg, jpeg, png, webp}` but contains `png` as a substring, with a matching
mimetype. -/
def fZig : UploadFile := ⟨"a.zzpng", "image/png", 10, "123-4.zzpng"⟩

/-- C6 counterexample: the `fileFilter` regex `/jpeg|jpg|png|webp/` is
unanchored, so it tests by substring.  The file `a.zzpng` has extension
`.zzpng`, outside the allow-list, yet the upload is accepted: the create
succeeds with 201, a record is inserted and the file is stored — refuting the
claim that every extension outside the allow-list is rejected. -/
theorem upload_ext_allowlist_counterexample :
    (postMovies stA bodyT (some fZig)).status = 201 ∧
      (postMovies stA bodyT (some fZig)).st.rows.length = stA.rows.length + 1 ∧
      ("/uploads/posters/123-4.zzpng" ∈ (postMovies stA bodyT (some fZig)).st.files) ∧
      String.mk (extnameL "a.zzpng".toList) = ".zzpng" ∧
      ".zzpng" ∉ [".jpg", ".jpeg", ".png", ".webp"] := by
  refine ⟨rfl, rfl, ?_, rfl, ?_⟩ <;> decide

/-- C6 (amended): an uploaded file is rejected when its lower-cased extension
contains none of `jpeg`, `jpg`, `png`, `webp` as a substring (likewise when
the mimetype contains none); the rejection yields status 500 and neither a
record nor a stored file.  The allow-list test is substring-based, so some
extensions outside `{jpg, jpeg, png, webp}` (e.g. `.zzpng`) are accepted when
the mimetype also matches. -/
theorem upload_ext_allowlist_amended (st : SrvSt) (body : ReqBody) (f : UploadFile)
    (hext : hasToken (toLowerL (extnameL f.originalname.toList)) = false) :
    postMovies st body (some f) = ⟨500, st, none⟩ := by
  have hacc : fileFilterAccepts f = false := by
    unfold fileFilterAccepts
    rw [hext]
    simp
  simp [postMovies, runUpload, hacc]

/-- Witness for C6's amended statement: a `.pdf` upload is rejected with no
state change. -/
theorem upload_ext_allowlist_amended_witness :
    postMovies stA bodyT (some ⟨"x.pdf", "application/pdf", 10, "1.pdf"⟩) =
      ⟨500, stA, none⟩ :=
  upload_ext_allowlist_amended stA bodyT ⟨"x.pdf", "application/pdf", 10, "1.pdf"⟩
    (by decide)

/-- A well-typed upload one byte over the 5 MB ceiling. -/
def fBig : UploadFile := ⟨"big.jpg", "image/jpeg", 5242881, "9.jpg"⟩

/-- C7 counterexample: an upload larger than 5 MB is rejected — but through
Express's default error handling as a generic status-500 fault (the server
registers no error middleware and maps no upload error to a 4xx), not as a
`ValidationError`-style client-facing validation failure. -/
theorem upload_size_counterexample :
    (postMovies stA bodyT (some fBig)).status = 500 ∧
      (postMovies stA bodyT (some fBig)).st = stA ∧
      ¬ (400 ≤ (postMovies stA bodyT (some fBig)).status ∧
          (postMovies stA bodyT (some fBig)).status < 500) := by
  refine ⟨rfl, rfl, ?_⟩
  decide

/-- C7 (amended): every upload larger than `limits.fileSize` (5 MB) is
rejected — no record is created and no stored file remains — but the failure
surfaces as a generic 500 response, not as a distinct validation failure. -/
theorem upload_size_amended (st : SrvSt) (body : ReqBody) (f : UploadFile)
    (hsize : fileSizeLimit < f.size) :
    postMovies st body (some f) = ⟨500, st, none⟩ := by
  cases hacc : fileFilterAccepts f with
  | false => simp [postMovies, runUpload, hacc]
  | true => simp [postMovies, runUpload, hacc, hsize]

/-- Witness for C7's amended statement. -/
theorem upload_size_amended_witness :
    postMovies stA bodyT (some fBig) = ⟨500, stA, none⟩ :=
  upload_size_amended stA bodyT fBig (by decide)

lemma jsOr_spec (s : Option String) :
    ((s = none ∨ s = some "") → jsOr s = none) ∧ jsOr s ≠ some "" := by
  rcases s with _ | v
  · simp [jsOr]
  · by_cases hv : v = ""
    · subst hv; simp [jsOr]
    · simp [jsOr, hv]

lemma postMovies_body_fields (st : SrvSt) (body : ReqBody) (f? : Option UploadFile)
    (r : Row) (h : (postMovies st body f?).body = some r) :
    r.year = jsOr body.year ∧ r.poster_url = jsOr body.poster_url ∧
      r.dop = jsOr body.dop ∧ r.bobo_crew = jsOr body.bobo_crew ∧
      r.imdb_url = jsOr body.imdb_url ∧ r.tmdb_url = jsOr body.tmdb_url ∧
      r.trailer_url = jsOr body.trailer_url ∧
      r.production_company = jsOr body.production_company ∧
      r.synopsis = jsOr body.synopsis := by
  cases hru : runUpload st.files f? with
  | none => simp [postMovies, hru] at h
  | some pr =>
    obtain ⟨files1, poster⟩ := pr
    cases ht : body.title with
    | none => simp [postMovies, hru, ht] at h
    | some t =>
      simp only [postMovies, hru, ht, Option.some.injEq] at h
      subst h
      simp

lemma putMovie_body_fields (st : SrvSt) (i : Nat) (body : ReqBody)
    (f? : Option UploadFile) (r : Row) (h : (putMovie st i body f?).body = some r) :
    r.year = jsOr body.year ∧ r.poster_url = jsOr body.poster_url ∧
      r.dop = jsOr body.dop ∧ r.bobo_crew = jsOr body.bobo_crew ∧
      r.imdb_url = jsOr body.imdb_url ∧ r.tmdb_url = jsOr body.tmdb_url ∧
      r.trailer_url = jsOr body.trailer_url ∧
      r.production_company = jsOr body.production_company ∧
      r.synopsis = jsOr body.synopsis := by
  cases hru : runUpload st.files f? with
  | none => simp [putMovie, hru] at h
  | some pr =>
    obtain ⟨files1, poster⟩ := pr
    cases hfind : findRow st.rows i with
    | none => simp [putMovie, hru, hfind] at h
    | some m =>
      cases ht : body.title with
      | none => simp [putMovie, hru, hfind, ht] at h
      | some t =>
        simp only [putMovie, hru, hfind, ht, Option.some.injEq] at h
        subst h
        simp

/-- The nine caller-suppliable optional fields, paired as
(submitted value, persisted value). -/
def optPairs (body : ReqBody) (r : Row) : List (Option String × Option String) :=
  [(body.year, r.year), (body.poster_url, r.poster_url), (body.dop, r.dop),
   (body.bobo_crew, r.bobo_crew), (body.imdb_url, r.imdb_url),
   (body.tmdb_url, r.tmdb_url), (body.trailer_url, r.trailer_url),
   (body.production_company, r.production_company), (body.synopsis, r.synopsis)]

/-- C10: for every create or update, each of the nine optional fields whose
submitted value is absent or the empty string is persisted as NULL, and no
persisted optional field is ever the empty string (the handlers bind each as
`field || null`). -/
theorem optional_fields_normalised (st : SrvSt) (body : ReqBody)
    (f? : Option UploadFile) (i : Nat) (r : Row) :
    ((postMovies st body f?).body = some r →
      ∀ p ∈ optPairs body r,
        ((p.1 = none ∨ p.1 = some "") → p.2 = none) ∧ p.2 ≠ some "") ∧
    ((putMovie st i body f?).body = some r →
      ∀ p ∈ optPairs body r,
        ((p.1 = none ∨ p.1 = some "") → p.2 = none) ∧ p.2 ≠ some "") := by
  constructor
  · intro h p hp
    obtain ⟨e1, e2, e3, e4, e5, e6, e7, e8, e9⟩ := postMovies_body_fields st body f? r h
    simp only [optPairs, List.mem_cons, List.not_mem_nil, or_false] at hp
    rcases hp with rfl | rfl | rfl | rfl | rfl | rfl | rfl | rfl | rfl
    · rw [e1]; exact jsOr_spec _
    · rw [e2]; exact jsOr_spec _
    · rw [e3]; exact jsOr_spec _
    · rw [e4]; exact jsOr_spec _
    · rw [e5]; exact jsOr_spec _
    · rw [e6]; exact jsOr_spec _
    · rw [e7]; exact jsOr_spec _
    · rw [e8]; exact jsOr_spec _
    · rw [e9]; exact jsOr_spec _
  · intro h p hp
    obtain ⟨e1, e2, e3, e4, e5, e6, e7, e8, e9⟩ := putMovie_body_fields st i body f? r h
    simp only [optPairs, List.mem_cons, List.not_mem_nil, or_false] at hp
    rcases hp with rfl | rfl | rfl | rfl | rfl | rfl | rfl | rfl | rfl
    · rw [e1]; exact jsOr_spec _
    · rw [e2]; exact jsOr_spec _
    · rw [e3]; exact jsOr_spec _
    · rw [e4]; exact jsOr_spec _
    · rw [e5]; exact jsOr_spec _
    · rw [e6]; exact jsOr_spec _
    · rw [e7]; exact jsOr_spec _
    · rw [e8]; exact jsOr_spec _
    · rw [e9]; exact jsOr_spec _

/-- The row created by posting `bodyT` (title only) to the `stA` state. -/
def rowT : Row :=
  ⟨2, "T", none, none, none, none, none, none, none, none, none, none⟩

/-- Witness for C10 at a concrete create: the persisted `year` of a request
that omitted it is NULL, and the persisted `synopsis` is not the empty
string. -/
theorem optional_fields_normalised_witness :
    rowT.year = none ∧ rowT.synopsis ≠ some "" :=
  ⟨((optional_fields_normalised stA bodyT none 0 rowT).1 rfl
      (bodyT.year, rowT.year) (by decide)).1 (Or.inl rfl),
    ((optional_fields_normalised stA bodyT none 0 rowT).1 rfl
      (bodyT.synopsis, rowT.synopsis) (by decide)).2⟩

lemma stripPre_self (p s : List Char) : stripPre p (p ++ s) = some s := by
  induction p with
  | nil => rfl
  | cons a ps ih => simp [stripPre, ih]

lemma stripPre_head_ne (p : Char) (ps : List Char) (c : Char) (cs : List Char)
    (h : p ≠ c) : stripPre (p :: ps) (c :: cs) = none := by
  simp [stripPre, h]

lemma capAt_self (l : List Char) (h1 : l ≠ []) (h2 : ∀ c ∈ l, c ≠ '&') :
    capAt l = some l := by
  have ht : l.takeWhile (fun c => c != '&') = l := by
    refine List.takeWhile_eq_self_iff.mpr ?_
    intro x hx
    simpa using h2 x hx
  simp [capAt, ht, h1]

lemma tryHere_watch (s r : List Char) (h : stripPre watchMark s = some r) :
    tryHere s = capAt r := by
  simp [tryHere, h]

lemma tryHere_short (s r : List Char) (h1 : stripPre watchMark s = none)
    (h2 : stripPre shortMark s = some r) : tryHere s = capAt r := by
  simp [tryHere, h1, h2]

lemma tryHere_none (s : List Char) (h1 : stripPre watchMark s = none)
    (h2 : stripPre shortMark s = none) : tryHere s = none := by
  simp [tryHere, h1, h2]

lemma findMatch_cons_ne (c : Char) (rest : List Char) (h : c ≠ 'y') :
    findMatch (c :: rest) = findMatch rest := by
  have h1 : stripPre watchMark (c :: rest) = none :=
    stripPre_head_ne _ _ _ _ (fun e => h e.symm)
  have h2 : stripPre shortMark (c :: rest) = none :=
    stripPre_head_ne _ _ _ _ (fun e => h e.symm)
  simp [findMatch, tryHere_none _ h1 h2]

lemma findMatch_cons_some (c : Char) (rest cap : List Char)
    (h : tryHere (c :: rest) = some cap) : findMatch (c :: rest) = some cap := by
  simp [findMatch, h]

lemma findMatch_watch (l : List Char) (h1 : l ≠ []) (h2 : ∀ c ∈ l, c ≠ '&') :
    findMatch (watchMark ++ l) = some l := by
  have hth : tryHere (watchMark ++ l) = capAt l := tryHere_watch _ _ (stripPre_self _ _)
  have hth' : tryHere ('y' :: ("outube.com/watch?v=".toList ++ l)) = some l := by
    have e : 'y' :: ("outube.com/watch?v=".toList ++ l) = watchMark ++ l := rfl
    rw [e, hth, capAt_self l h1 h2]
  exact findMatch_cons_some 'y' ("outube.com/watch?v=".toList ++ l) l hth'

lemma findMatch_short (l : List Char) (h1 : l ≠ []) (h2 : ∀ c ∈ l, c ≠ '&') :
    findMatch (shortMark ++ l) = some l := by
  have hw : stripPre watchMark (shortMark ++ l) = none := rfl
  have hth : tryHere (shortMark ++ l) = capAt l :=
    tryHere_short _ _ hw (stripPre_self _ _)
  have hth' : tryHere ('y' :: ("outu.be/".toList ++ l)) = some l := by
    have e : 'y' :: ("outu.be/".toList ++ l) = shortMark ++ l := rfl
    rw [e, hth, capAt_self l h1 h2]
  exact findMatch_cons_some 'y' ("outu.be/".toList ++ l) l hth'

lemma findMatch_none_of_no_marker : ∀ l : List Char,
    containsL watchMark l = false → containsL shortMark l = false →
      findMatch l = none := by
  intro l
  induction l with
  | nil => intro _ _; rfl
  | cons c rest ih =>
    intro h1 h2
    simp only [containsL, Bool.or_eq_false_iff] at h1 h2
    have hw : stripPre watchMark (c :: rest) = none := by
      cases hx : stripPre watchMark (c :: rest) with
      | none => rfl
      | some r => rw [hx] at h1; simp at h1
    have hs : stripPre shortMark (c :: rest) = none := by
      cases hx : stripPre shortMark (c :: rest) with
      | none => rfl
      | some r => rw [hx] at h2; simp at h2
    simp [findMatch, tryHere_none _ hw hs, ih h1.2 h2.2]

lemma toList_eq_nil {s : String} (h : s.toList = []) : s = "" := by
  cases s with
  | mk d =>
    have : d = [] := h
    subst this
    rfl

/-- C9: the client's embed-URL derivation maps a standard watch URL
`youtube.com/watch?v=ID` and a short-link URL `youtu.be/ID` to the YouTube
embed URL carrying the extracted video identifier, and returns any URL
containing neither marker unchanged. -/
theorem getEmbedUrl_contract :
    (∀ vid : String, vid ≠ "" → (∀ c ∈ vid.toList, c ≠ '&') →
      getEmbedUrl ("https://www.youtube.com/watch?v=" ++ vid) =
        "https://www.youtube.com/embed/" ++ vid ++ "?autoplay=1&rel=0") ∧
    (∀ vid : String, vid ≠ "" → (∀ c ∈ vid.toList, c ≠ '&') →
      getEmbedUrl ("https://youtu.be/" ++ vid) =
        "https://www.youtube.com/embed/" ++ vid ++ "?autoplay=1&rel=0") ∧
    (∀ url : String, containsL watchMark url.toList = false →
      containsL shortMark url.toList = false → getEmbedUrl url = url) := by
  refine ⟨?_, ?_, ?_⟩
  · intro vid hne hamp
    have hl : vid.toList ≠ [] := fun h => hne (toList_eq_nil h)
    have hfm : findMatch ("https://www.youtube.com/watch?v=" ++ vid).toList =
        some vid.toList := by
      have e0 : ("https://www.youtube.com/watch?v=" ++ vid).toList =
          'h' :: 't' :: 't' :: 'p' :: 's' :: ':' :: '/' :: '/' :: 'w' :: 'w' :: 'w' ::
            '.' :: (watchMark ++ vid.toList) := rfl
      rw [e0]
      rw [findMatch_cons_ne 'h' _ (by decide)]
      rw [findMatch_cons_ne 't' _ (by decide)]
      rw [findMatch_cons_ne 't' _ (by decide)]
      rw [findMatch_cons_ne 'p' _ (by decide)]
      rw [findMatch_cons_ne 's' _ (by decide)]
      rw [findMatch_cons_ne ':' _ (by decide)]
      rw [findMatch_cons_ne '/' _ (by decide)]
      rw [findMatch_cons_ne '/' _ (by decide)]
      rw [findMatch_cons_ne 'w' _ (by decide)]
      rw [findMatch_cons_ne 'w' _ (by decide)]
      rw [findMatch_cons_ne 'w' _ (by decide)]
      rw [findMatch_cons_ne '.' _ (by decide)]
      exact findMatch_watch vid.toList hl hamp
    unfold getEmbedUrl
    rw [hfm]
    rfl
  · intro vid hne hamp
    have hl : vid.toList ≠ [] := fun h => hne (toList_eq_nil h)
    have hfm : findMatch ("https://youtu.be/" ++ vid).toList = some vid.toList := by
      have e0 : ("https://youtu.be/" ++ vid).toList =
          'h' :: 't' :: 't' :: 'p' :: 's' :: ':' :: '/' :: '/' ::
            (shortMark ++ vid.toList) := rfl
      rw [e0]
      rw [findMatch_cons_ne 'h' _ (by decide)]
      rw [findMatch_cons_ne 't' _ (by decide)]
      rw [findMatch_cons_ne 't' _ (by decide)]
      rw [findMatch_cons_ne 'p' _ (by decide)]
      rw [findMatch_cons_ne 's' _ (by decide)]
      rw [findMatch_cons_ne ':' _ (by decide)]
      rw [findMatch_cons_ne '/' _ (by decide)]
      rw [findMatch_cons_ne '/' _ (by decide)]
      exact findMatch_short vid.toList hl hamp
    unfold getEmbedUrl
    rw [hfm]
    rfl
  · intro url h1 h2
    unfold getEmbedUrl
    rw [findMatch_none_of_no_marker url.toList h1 h2]

/-- Witness for C9 at concrete URLs: a watch URL, a short-link URL, and an
unrecognised URL. -/
theorem getEmbedUrl_contract_witness :
    getEmbedUrl "https://www.youtube.com/watch?v=4dAaLbsQSzI" =
      "https://www.youtube.com/embed/4dAaLbsQSzI?autoplay=1&rel=0" ∧
    getEmbedUrl "https://youtu.be/4dAaLbsQSzI" =
      "https://www.youtube.com/embed/4dAaLbsQSzI?autoplay=1&rel=0" ∧
    getEmbedUrl "https://vimeo.com/123" = "https://vimeo.com/123" :=
  ⟨getEmbedUrl_contract.1 "4dAaLbsQSzI" (by decide) (by decide),
   getEmbedUrl_contract.2.1 "4dAaLbsQSzI" (by decide) (by decide),
   getEmbedUrl_contract.2.2 "https://vimeo.com/123" (by decide) (by decide)⟩
